import Mathlib

/-!
Verification of the mykb authorization subsystem.

Shallow embedding of the OAuth/token-store core of the mykb server:
the typed token store (`storage/tokens.go`), the OAuth HTTP handlers
(`httpd/oauth.go`), the bearer-token authentication gate
(`httpd/server.go`), and the rate-limiter key derivation
(`httpd/ratelimit.go`).  Times are unix seconds (`Int`).  Randomly
generated secrets (`GenerateToken`) and the bcrypt password comparison
are passed in as explicit parameters.  The SQL `tokens` table (primary
key `hash`) is modelled as a list of rows together with a
well-formedness predicate stating that hashes are unique.
-/

namespace MyKB

/-! ### SHA-256 (crypto/sha256), modelling the digest used by
`storage.HashToken` and `httpd.HashPKCE` over `Nat` bytes and words. -/

def w32 : Nat := 4294967296

def add32 (a b : Nat) : Nat := (a + b) % w32

def rotr32 (x n : Nat) : Nat := ((x >>> n) ||| (x <<< (32 - n))) % w32

def shaCh (e f g : Nat) : Nat := (e &&& f) ^^^ ((e ^^^ 4294967295) &&& g)

def shaMaj (a b c : Nat) : Nat := (a &&& b) ^^^ (a &&& c) ^^^ (b &&& c)

/-- Xor of two right-rotations and a third rotation or shift of a word. -/
def rotXor3 (x r1 r2 r3 : Nat) (shift3 : Bool) : Nat :=
  rotr32 x r1 ^^^ rotr32 x r2 ^^^ (if shift3 then x >>> r3 else rotr32 x r3)

def bsig0 (x : Nat) : Nat := rotXor3 x 2 13 22 false

def bsig1 (x : Nat) : Nat := rotXor3 x 6 11 25 false

def ssig0 (x : Nat) : Nat := rotXor3 x 7 18 3 true

def ssig1 (x : Nat) : Nat := rotXor3 x 17 19 10 true

/-- Round constants of SHA-256 (FIPS 180-4), in decimal. -/
def shaK : List Nat :=
  [1116352408, 1899447441, 3049323471, 3921009573, 961987163,
   1508970993, 2453635748, 2870763221, 3624381080, 310598401,
   607225278, 1426881987, 1925078388, 2162078206, 2614888103,
   3248222580, 3835390401, 4022224774, 264347078, 604807628,
   770255983, 1249150122, 1555081692, 1996064986, 2554220882,
   2821834349, 2952996808, 3210313671, 3336571891, 3584528711,
   113926993, 338241895, 666307205, 773529912, 1294757372,
   1396182291, 1695183700, 1986661051, 2177026350, 2456956037,
   2730485921, 2820302411, 3259730800, 3345764771, 3516065817,
   3600352804, 4094571909, 275423344, 430227734, 506948616,
   659060556, 883997877, 958139571, 1322822218, 1537002063,
   1747873779, 1955562222, 2024104815, 2227730452, 2361852424,
   2428436474, 2756734187, 3204031479, 3329325298]

structure Sha256State where
  a : Nat
  b : Nat
  c : Nat
  d : Nat
  e : Nat
  f : Nat
  g : Nat
  h : Nat
deriving DecidableEq

/-- Initial hash state of SHA-256 (FIPS 180-4), in decimal. -/
def shaH0 : Sha256State :=
  ⟨1779033703, 3144134277, 1013904242, 2773480762,
   1359893119, 2600822924, 528734635, 1541459225⟩

def bytesToWords : List Nat → List Nat
  | b0 :: b1 :: b2 :: b3 :: rest =>
    ((b0 <<< 24) ||| (b1 <<< 16) ||| (b2 <<< 8) ||| b3) :: bytesToWords rest
  | _ => []

def extendSchedule : Nat → List Nat → List Nat
  | 0, acc => acc
  | n + 1, acc =>
    let w := add32 (add32 (ssig1 (acc.getD 1 0)) (acc.getD 6 0))
                   (add32 (ssig0 (acc.getD 14 0)) (acc.getD 15 0))
    extendSchedule n (w :: acc)

def shaRounds : List (Nat × Nat) → Sha256State → Sha256State
  | [], st => st
  | (k, w) :: rest, st =>
    let t1 := add32 st.h (add32 (bsig1 st.e) (add32 (shaCh st.e st.f st.g) (add32 k w)))
    let t2 := add32 (bsig0 st.a) (shaMaj st.a st.b st.c)
    shaRounds rest ⟨add32 t1 t2, st.a, st.b, st.c, add32 st.d t1, st.e, st.f, st.g⟩

def compressBlock (st : Sha256State) (block : List Nat) : Sha256State :=
  let sched := (extendSchedule 48 (bytesToWords block).reverse).reverse
  let r := shaRounds (shaK.zip sched) st
  ⟨add32 st.a r.a, add32 st.b r.b, add32 st.c r.c, add32 st.d r.d,
   add32 st.e r.e, add32 st.f r.f, add32 st.g r.g, add32 st.h r.h⟩

def lenBytes (n : Nat) : List Nat :=
  [(n >>> 56) &&& 255, (n >>> 48) &&& 255, (n >>> 40) &&& 255, (n >>> 32) &&& 255,
   (n >>> 24) &&& 255, (n >>> 16) &&& 255, (n >>> 8) &&& 255, n &&& 255]

def padMessage (msg : List Nat) : List Nat :=
  let padZeros := (64 + 56 - ((msg.length + 1) % 64)) % 64
  msg ++ 0x80 :: List.replicate padZeros 0 ++ lenBytes (8 * msg.length)

def splitBlocks : Nat → List Nat → List (List Nat)
  | 0, _ => []
  | n + 1, l => l.take 64 :: splitBlocks n (l.drop 64)

def wordBytes (w : Nat) : List Nat :=
  [(w >>> 24) &&& 255, (w >>> 16) &&& 255, (w >>> 8) &&& 255, w &&& 255]

def stateBytes (st : Sha256State) : List Nat :=
  wordBytes st.a ++ wordBytes st.b ++ wordBytes st.c ++ wordBytes st.d ++
  wordBytes st.e ++ wordBytes st.f ++ wordBytes st.g ++ wordBytes st.h

def sha256 (msg : List Nat) : List Nat :=
  let padded := padMessage msg
  stateBytes ((splitBlocks (padded.length / 64) padded).foldl compressBlock shaH0)

def utf8Char (n : Nat) : List Nat :=
  if n < 0x80 then [n]
  else if n < 0x800 then [0xC0 ||| (n >>> 6), 0x80 ||| (n &&& 0x3F)]
  else if n < 0x10000 then
    [0xE0 ||| (n >>> 12), 0x80 ||| ((n >>> 6) &&& 0x3F), 0x80 ||| (n &&& 0x3F)]
  else
    [0xF0 ||| (n >>> 18), 0x80 ||| ((n >>> 12) &&& 0x3F),
     0x80 ||| ((n >>> 6) &&& 0x3F), 0x80 ||| (n &&& 0x3F)]

def utf8Encode (s : String) : List Nat :=
  (s.data.map (fun c => utf8Char c.toNat)).flatten

def hexDigit (n : Nat) : Char :=
  Char.ofNat (if n < 10 then 48 + n else 87 + n)

def hexByte (b : Nat) : List Char :=
  [hexDigit (b >>> 4), hexDigit (b &&& 15)]

/-- Model of `storage.HashToken`: hex-encoded SHA-256 of the raw token. -/
def hashToken (token : String) : String :=
  ⟨((sha256 (utf8Encode token)).map hexByte).flatten⟩

def b64Alphabet : List Char :=
  "ABCDEFGHIJKLMNOPQRSTUVWXYZabcdefghijklmnopqrstuvwxyz0123456789-_".data

def b64Digit (n : Nat) : Char := b64Alphabet.getD n 'A'

/-- Unpadded base64url character stream (encoding/base64 RawURLEncoding). -/
def b64Chars : List Nat → List Char
  | a :: b :: c :: rest =>
    b64Digit (a >>> 2) :: b64Digit (((a &&& 3) <<< 4) ||| (b >>> 4)) ::
    b64Digit (((b &&& 15) <<< 2) ||| (c >>> 6)) :: b64Digit (c &&& 63) :: b64Chars rest
  | [a, b] =>
    [b64Digit (a >>> 2), b64Digit (((a &&& 3) <<< 4) ||| (b >>> 4)),
     b64Digit ((b &&& 15) <<< 2)]
  | [a] => [b64Digit (a >>> 2), b64Digit ((a &&& 3) <<< 4)]
  | [] => []

def b64urlNoPad (bytes : List Nat) : String := ⟨b64Chars bytes⟩

/-- Model of `httpd.HashPKCE`: unpadded base64url of SHA-256 of the verifier. -/
def hashPKCE (verifier : String) : String :=
  b64urlNoPad (sha256 (utf8Encode verifier))

/-! ### Token store (storage/tokens.go).  The `tokens` table has primary
key `hash`; it is modelled as a list of rows, with `Store.wf` stating
key uniqueness.  `INSERT OR REPLACE` is modelled by removing any row
with the same hash and consing the new row. -/

inductive TokenType where
  | access
  | refresh
  | authCode
  | csrf
deriving DecidableEq

structure Token where
  hash : String
  type : TokenType
  clientID : String
  expiresAt : Int
  data : List (String × String)
deriving DecidableEq

abbrev Store := List Token

/-- Go map / form lookup: value for key, or the empty string if absent. -/
def getData (d : List (String × String)) (k : String) : String :=
  match d.find? (fun p => p.1 == k) with
  | some p => p.2
  | none => ""

/-- Model of `r.FormValue` / query `Get`: first value for the key, else "". -/
def formValue (form : List (String × String)) (k : String) : String := getData form k

/-- Hashes in the store are unique (the `hash` column is the primary key). -/
def Store.wf (st : Store) : Prop := (st.map (fun t => t.hash)).Nodup

instance (st : Store) : Decidable st.wf :=
  inferInstanceAs (Decidable (List.Nodup _))

/-- Best-effort sweep run by `StoreToken`: delete rows with `expires_at < now`. -/
def sweepExpired (now : Int) (st : Store) : Store :=
  st.filter (fun t => !(decide (t.expiresAt < now)))

/-- Model of `storage.StoreToken`: sweep expired rows, then insert-or-replace
the row keyed by `h`. -/
def storeToken (h : String) (ty : TokenType) (cid : String) (expiresAt : Int)
    (d : List (String × String)) (now : Int) (st : Store) : Store :=
  Token.mk h ty cid expiresAt d :: (sweepExpired now st).filter (fun t => !(t.hash == h))

/-- Row matching the `hash = ? AND type = ? AND expires_at > ?` condition. -/
def tokenMatches (h : String) (ty : TokenType) (now : Int) (t : Token) : Bool :=
  t.hash == h && t.type == ty && decide (now < t.expiresAt)

/-- Model of `storage.ValidateToken`: read-only lookup of an unexpired row
of the requested type. -/
def validateToken (h : String) (ty : TokenType) (now : Int) (st : Store) : Option Token :=
  st.find? (tokenMatches h ty now)

/-- Model of `storage.ConsumeToken`: `DELETE ... RETURNING` — returns the
matching unexpired row of the requested type and removes every matching
row from the store. -/
def consumeToken (h : String) (ty : TokenType) (now : Int) (st : Store) :
    Option Token × Store :=
  (st.find? (tokenMatches h ty now), st.filter (fun t => !(tokenMatches h ty now t)))

/-- Model of `storage.DeleteToken`: unconditional removal by hash. -/
def deleteToken (h : String) (st : Store) : Store :=
  st.filter (fun t => !(t.hash == h))

/-! ### OAuth client registry (storage, `oauth_clients` table). -/

structure OAuthClient where
  clientID : String
  clientName : String
  redirectURIs : List String
  createdAt : Int
  lastUsedAt : Int
deriving DecidableEq

/-- Model of `storage.GetClient`: lookup by primary key `client_id`. -/
def getClient (clients : List OAuthClient) (id : String) : Option OAuthClient :=
  clients.find? (fun c => c.clientID == id)

/-- Model of `storage.DeleteStaleClients`: drop clients unused for more
than 90 days (7776000 seconds). -/
def deleteStaleClients (now : Int) (clients : List OAuthClient) : List OAuthClient :=
  clients.filter (fun c => !(decide (c.lastUsedAt < now - 7776000)))

/-! ### URL parsing (net/url), restricted to the fields used by
`validateRedirectURI`: scheme, hostname, fragment. -/

structure ParsedURL where
  scheme : String
  host : String
  fragment : String
deriving DecidableEq

/-- Split a char list at the first occurrence of `c`: (before, after). -/
def splitFirst (c : Char) : List Char → (List Char × List Char)
  | [] => ([], [])
  | x :: rest =>
    if x = c then ([], rest)
    else
      let p := splitFirst c rest
      (x :: p.1, p.2)

/-- Model of net/url `getscheme`: returns (scheme, rest-after-colon);
`([], orig)` when the URL has no scheme; `none` on a leading colon. -/
def getSchemeAux (orig : List Char) : List Char → List Char → Option (List Char × List Char)
  | _, [] => some ([], orig)
  | acc, c :: rest =>
    if c.isAlpha then getSchemeAux orig (c :: acc) rest
    else if c.isDigit ∨ c = '+' ∨ c = '-' ∨ c = '.' then
      if acc.isEmpty then some ([], orig) else getSchemeAux orig (c :: acc) rest
    else if c = ':' then
      if acc.isEmpty then none else some (acc.reverse, rest)
    else some ([], orig)

/-- Part of an authority after the last `@` (userinfo removed). -/
def afterLastAt (l : List Char) : List Char :=
  (l.reverse.takeWhile (fun c => c ≠ '@')).reverse

/-- Model of net/url `stripPort`, as used by `URL.Hostname`. -/
def stripPort (l : List Char) : List Char :=
  if !(l.contains ':') then l
  else if l.contains ']' then
    match l.takeWhile (fun c => c ≠ ']') with
    | '[' :: rest => rest
    | other => other
  else l.takeWhile (fun c => c ≠ ':')

/-- Hostname of the part following `scheme:`: empty unless it starts with
`//`; the authority runs to the next `/` or `?`. -/
def hostOf (rest : List Char) : String :=
  match rest with
  | '/' :: '/' :: r =>
    ⟨stripPort (afterLastAt (r.takeWhile (fun c => c ≠ '/' ∧ c ≠ '?')))⟩
  | _ => ""

def hasCtl (l : List Char) : Bool := l.any (fun c => decide (c.toNat < 32) || c.toNat == 127)

/-- Model of `url.Parse` restricted to scheme (lowercased), hostname and
fragment.  Control characters make parsing fail; percent-escape
validation is not modelled. -/
def parseURL (s : String) : Option ParsedURL :=
  if hasCtl s.data then none
  else
    let p := splitFirst '#' s.data
    match getSchemeAux p.1 [] p.1 with
    | none => none
    | some (scheme, rest) =>
      some ⟨⟨scheme.map Char.toLower⟩, hostOf rest, ⟨p.2⟩⟩

/-- Model of `httpd.validateRedirectURI` (oauth.go): `none` when the URI is
accepted, `some errorMessage` when rejected. -/
def validateRedirectURI (uri : String) : Option String :=
  match parseURL uri with
  | none => some "invalid URL"
  | some parsed =>
    if parsed.scheme = "https" then
      if parsed.fragment ≠ "" then some "fragment not allowed" else none
    else if parsed.scheme = "http" then
      if parsed.host ≠ "localhost" ∧ parsed.host ≠ "127.0.0.1" ∧ parsed.host ≠ "::1" then
        some "http only allowed for localhost"
      else if parsed.fragment ≠ "" then some "fragment not allowed" else none
    else some "scheme must be http or https"

/-! ### HTTP handler models (httpd/oauth.go, httpd/server.go).
Each handler is a pure function of the store, the request data, the
current time, and the freshly generated random secrets, returning the
response together with the updated store. -/

inductive HttpResponse where
  | err (status : Nat) (msg : String)
  | tokens (accessToken refreshToken : String) (expiresIn : Int)
  | redirect (uri code state : String)
  | htmlForm (csrfToken : String)
deriving DecidableEq

def isTokenSuccess : HttpResponse → Bool
  | .tokens _ _ _ => true
  | _ => false

inductive RegResult where
  | err (status : Nat) (msg : String)
  | created (status : Nat) (clientID clientName : String) (redirectURIs : List String)
deriving DecidableEq

/-- First validation error among the submitted redirect URIs. -/
def firstURIError : List String → Option String
  | [] => none
  | u :: rest =>
    match validateRedirectURI u with
    | some e => some e
    | none => firstURIError rest

/-- Model of `handleRegister`: `body` is the decoded JSON request
(`none` models a decode failure), `genClientID` the freshly generated
UUID. -/
def handleRegister (body : Option (String × List String)) (genClientID : String)
    (now : Int) (clients : List OAuthClient) : RegResult × List OAuthClient :=
  match body with
  | none => (.err 400 "invalid request body", clients)
  | some (clientName, redirectURIs) =>
    if redirectURIs.length = 0 then (.err 400 "redirect_uris required", clients)
    else
      match firstURIError redirectURIs with
      | some e => (.err 400 ("invalid redirect_uri: " ++ e), clients)
      | none =>
        (.created 201 genClientID clientName redirectURIs,
         OAuthClient.mk genClientID clientName redirectURIs now now ::
           deleteStaleClients now clients)

/-- Model of `handleAuthorizeGet`: validates the client, the redirect URI
membership, the response type and the challenge method, then stores a
CSRF token (5 minute TTL) binding the server-side copy of the flow
parameters and renders the login form. -/
def handleAuthorizeGet (st : Store) (clients : List OAuthClient)
    (query : List (String × String)) (now : Int) (genCSRF : String) :
    HttpResponse × Store :=
  let clientID := formValue query "client_id"
  let redirectURI := formValue query "redirect_uri"
  match getClient clients clientID with
  | none => (.err 400 "invalid client_id", st)
  | some client =>
    if ¬ client.redirectURIs.contains redirectURI then (.err 400 "invalid redirect_uri", st)
    else if formValue query "response_type" ≠ "code" then
      (.err 400 "unsupported response_type", st)
    else
      let ccm0 := formValue query "code_challenge_method"
      let ccm := if ccm0 = "" then "S256" else ccm0
      if ccm ≠ "S256" then (.err 400 "unsupported code_challenge_method", st)
      else
        (.htmlForm genCSRF,
         storeToken (hashToken genCSRF) TokenType.csrf clientID (now + 300)
           [("client_id", clientID), ("redirect_uri", redirectURI),
            ("code_challenge", formValue query "code_challenge"),
            ("code_challenge_method", ccm), ("state", formValue query "state")] now st)

/-- Model of `handleAuthorizePost`: consumes the CSRF token, reads the flow
parameters from its bound data, checks the password (`bcryptOK` models
`bcrypt.CompareHashAndPassword` succeeding), then mints the single-use
authorization code and redirects. -/
def handleAuthorizePost (st : Store) (passwordHash : Option String)
    (bcryptOK : String → String → Bool) (form : List (String × String))
    (now codeExpiry : Int) (genCode : String) : HttpResponse × Store :=
  match consumeToken (hashToken (formValue form "csrf_token")) TokenType.csrf now st with
  | (none, st1) => (.err 400 "invalid or expired CSRF token", st1)
  | (some csrf, st1) =>
    let clientID := getData csrf.data "client_id"
    let redirectURI := getData csrf.data "redirect_uri"
    match passwordHash with
    | none => (.err 500 "password not configured", st1)
    | some storedHash =>
      if ¬ bcryptOK storedHash (formValue form "password") then
        (.err 401 "invalid password", st1)
      else
        (.redirect redirectURI genCode (getData csrf.data "state"),
         storeToken (hashToken genCode) TokenType.authCode clientID (now + codeExpiry)
           [("client_id", clientID), ("redirect_uri", redirectURI),
            ("code_challenge", getData csrf.data "code_challenge"),
            ("code_challenge_method", getData csrf.data "code_challenge_method")] now st1)

/-- Model of `handleTokenAuthCode`: the `authorization_code` grant of
`POST /token`. -/
def handleTokenAuthCode (st : Store) (form : List (String × String))
    (now tokenExpiry refreshExpiry : Int) (genAccess genRefresh : String) :
    HttpResponse × Store :=
  let code := formValue form "code"
  let redirectURI := formValue form "redirect_uri"
  let codeVerifier := formValue form "code_verifier"
  let clientID := formValue form "client_id"
  if code = "" ∨ redirectURI = "" ∨ codeVerifier = "" ∨ clientID = "" then
    (.err 400 "missing required parameters", st)
  else
    match consumeToken (hashToken code) TokenType.authCode now st with
    | (none, st1) => (.err 400 "invalid or expired code", st1)
    | (some authCode, st1) =>
      if getData authCode.data "client_id" ≠ clientID then
        (.err 400 "client_id mismatch", st1)
      else if getData authCode.data "redirect_uri" ≠ redirectURI then
        (.err 400 "redirect_uri mismatch", st1)
      else if hashPKCE codeVerifier ≠ getData authCode.data "code_challenge" then
        (.err 400 "invalid code_verifier", st1)
      else
        (.tokens genAccess genRefresh tokenExpiry,
         storeToken (hashToken genRefresh) TokenType.refresh clientID (now + refreshExpiry) [] now
           (storeToken (hashToken genAccess) TokenType.access clientID (now + tokenExpiry) [] now
             st1))

/-- Model of `handleTokenRefresh`: the `refresh_token` grant of
`POST /token` — validate, check client binding, rotate. -/
def handleTokenRefresh (st : Store) (form : List (String × String))
    (now tokenExpiry refreshExpiry : Int) (genAccess genRefresh : String) :
    HttpResponse × Store :=
  let refreshToken := formValue form "refresh_token"
  let clientID := formValue form "client_id"
  if refreshToken = "" then (.err 400 "missing refresh_token", st)
  else if clientID = "" then (.err 400 "missing client_id", st)
  else
    match validateToken (hashToken refreshToken) TokenType.refresh now st with
    | none => (.err 400 "invalid or expired refresh_token", st)
    | some token =>
      if token.clientID ≠ clientID then (.err 400 "invalid refresh_token", st)
      else
        (.tokens genAccess genRefresh tokenExpiry,
         storeToken (hashToken genRefresh) TokenType.refresh token.clientID
           (now + refreshExpiry) [] now
           (storeToken (hashToken genAccess) TokenType.access token.clientID
             (now + tokenExpiry) [] now
             (deleteToken (hashToken refreshToken) st)))

inductive AuthResult where
  | unauthorized (status : Nat) (challenge body : String)
  | allowed
deriving DecidableEq

/-- Bool prefix test on char lists (strings.HasPrefix; for the ASCII
prefix "Bearer " this agrees with the byte-level test). -/
def startsWithChars : List Char → List Char → Bool
  | _, [] => true
  | [], _ :: _ => false
  | c :: cs, p :: ps => c == p && startsWithChars cs ps

/-- Model of `Server.requireAuth` (server.go): the bearer-token gate on the
protected `/mcp` endpoint.  `strings.TrimPrefix` of the checked 7-char
prefix is dropping the first 7 characters. -/
def requireAuth (st : Store) (now : Int) (authHeader : String) : AuthResult :=
  if ¬ startsWithChars authHeader.data "Bearer ".data then
    .unauthorized 401 "Bearer realm=\"mykb\"" "missing token"
  else
    match validateToken (hashToken ⟨authHeader.data.drop 7⟩) TokenType.access now st with
    | none => .unauthorized 401 "Bearer realm=\"mykb\", error=\"invalid_token\"" "invalid token"
    | some _ => .allowed

/-! ### Rate-limiter key derivation (httpd/ratelimit.go). -/

/-- Model of `getIPFromXFF`: the part of the header before the first comma. -/
def xffFirst : List Char → List Char
  | [] => []
  | c :: rest => if c = ',' then [] else c :: xffFirst rest

def getIPFromXFF (xff : String) : String := ⟨xffFirst xff.data⟩

def lastIdxOf (c : Char) (l : List Char) : Option Nat :=
  match l.reverse.findIdx? (fun x => x = c) with
  | none => none
  | some j => some (l.length - 1 - j)

/-- Model of `net.SplitHostPort`, returning the host on success. -/
def splitHostPort (s : String) : Option String :=
  let l := s.data
  match lastIdxOf ':' l with
  | none => none
  | some i =>
    if l.head? = some '[' then
      match l.findIdx? (fun x => x = ']') with
      | none => none
      | some e =>
        if e + 1 = l.length then none
        else if e + 1 = i then
          if (l.drop 1).contains '[' ∨ (l.drop (e + 1)).contains ']' then none
          else some ⟨(l.drop 1).take (e - 1)⟩
        else none
      else
        if (l.take i).contains ':' then none
        else if l.contains '[' ∨ l.contains ']' then none
        else some ⟨l.take i⟩

/-- Model of `getIP`: the host part of the transport-level peer address,
or the whole address when it does not split. -/
def getIP (remoteAddr : String) : String :=
  match splitHostPort remoteAddr with
  | some host => host
  | none => remoteAddr

/-- Model of the key derivation inside `IPRateLimiter.RateLimit`: trust the
forwarded-for header only when `behindProxy` is set and the header is
non-empty. -/
def rateLimitKey (behindProxy : Bool) (remoteAddr xff : String) : String :=
  if behindProxy ∧ xff ≠ "" then getIPFromXFF xff else getIP remoteAddr

/-! ### Store lemmas -/

theorem tokenMatches_hash {h : String} {ty : TokenType} {now : Int} {t : Token}
    (hm : tokenMatches h ty now t = true) : t.hash = h := by
  simp only [tokenMatches, Bool.and_eq_true, beq_iff_eq] at hm
  exact hm.1.1

theorem tokenMatches_type {h : String} {ty : TokenType} {now : Int} {t : Token}
    (hm : tokenMatches h ty now t = true) : t.type = ty := by
  simp only [tokenMatches, Bool.and_eq_true, beq_iff_eq] at hm
  exact hm.1.2

theorem find?_matches_none {h : String} {ty : TokenType} {now : Int} {st : Store}
    (hno : ∀ t ∈ st, ¬(t.hash = h ∧ t.type = ty)) :
    st.find? (tokenMatches h ty now) = none := by
  refine List.find?_eq_none.mpr (fun t ht => ?_)
  simp only [tokenMatches, Bool.and_eq_true, beq_iff_eq, decide_eq_true_eq]
  rintro ⟨⟨hh, hty⟩, -⟩
  exact hno t ht ⟨hh, hty⟩

theorem consume_none_of_no_match {h : String} {ty : TokenType} {now : Int} {st : Store}
    (hno : ∀ t ∈ st, ¬(t.hash = h ∧ t.type = ty)) :
    (consumeToken h ty now st).1 = none :=
  find?_matches_none hno

theorem validate_none_of_no_match {h : String} {ty : TokenType} {now : Int} {st : Store}
    (hno : ∀ t ∈ st, ¬(t.hash = h ∧ t.type = ty)) :
    validateToken h ty now st = none :=
  find?_matches_none hno

theorem consume_success_hash_gone {h : String} {ty : TokenType} {now : Int} {st : Store}
    {tk : Token} (hwf : Store.wf st)
    (hfind : (consumeToken h ty now st).1 = some tk) :
    ∀ t ∈ (consumeToken h ty now st).2, t.hash ≠ h := by
  intro t ht hth
  simp only [consumeToken] at hfind ht
  have hmem := List.mem_filter.mp ht
  have htk_match : tokenMatches h ty now tk = true := List.find?_some hfind
  have htk_mem : tk ∈ st := List.mem_of_find?_eq_some hfind
  have hteq : t = tk :=
    List.inj_on_of_nodup_map hwf hmem.1 htk_mem (by rw [hth, tokenMatches_hash htk_match])
  have h2 := hmem.2
  rw [hteq] at h2
  simp [htk_match] at h2

theorem mem_storeToken {t : Token} {h : String} {ty : TokenType} {cid : String}
    {e now : Int} {d : List (String × String)} {st : Store}
    (ht : t ∈ storeToken h ty cid e d now st) :
    t = Token.mk h ty cid e d ∨ t ∈ st := by
  simp only [storeToken] at ht
  rcases List.mem_cons.mp ht with h1 | h1
  · exact Or.inl h1
  · exact Or.inr ((List.mem_filter.mp (List.mem_filter.mp h1).1).1)

theorem mem_deleteToken {t : Token} {h : String} {st : Store}
    (ht : t ∈ deleteToken h st) : t.hash ≠ h ∧ t ∈ st := by
  have := List.mem_filter.mp ht
  exact ⟨by simpa using this.2, this.1⟩

theorem consume_snd_subset {h : String} {ty : TokenType} {now : Int} {st : Store}
    {t : Token} (ht : t ∈ (consumeToken h ty now st).2) : t ∈ st :=
  (List.mem_filter.mp ht).1

/-! ### Handler inversion lemmas -/

theorem handleTokenAuthCode_success
    (st : Store) (form : List (String × String)) (now texp rexp : Int) (ga gr : String)
    (hsucc : isTokenSuccess (handleTokenAuthCode st form now texp rexp ga gr).1 = true) :
    ∃ tk, (consumeToken (hashToken (formValue form "code")) TokenType.authCode now st).1 = some tk
      ∧ getData tk.data "client_id" = formValue form "client_id"
      ∧ getData tk.data "redirect_uri" = formValue form "redirect_uri"
      ∧ hashPKCE (formValue form "code_verifier") = getData tk.data "code_challenge"
      ∧ ¬(formValue form "code" = "" ∨ formValue form "redirect_uri" = ""
          ∨ formValue form "code_verifier" = "" ∨ formValue form "client_id" = "")
      ∧ handleTokenAuthCode st form now texp rexp ga gr
          = (HttpResponse.tokens ga gr texp,
             storeToken (hashToken gr) TokenType.refresh (formValue form "client_id")
               (now + rexp) [] now
               (storeToken (hashToken ga) TokenType.access (formValue form "client_id")
                 (now + texp) [] now
                 (consumeToken (hashToken (formValue form "code"))
                   TokenType.authCode now st).2)) := by
  simp only [handleTokenAuthCode] at hsucc ⊢
  split at hsucc
  next h0 => simp [isTokenSuccess] at hsucc
  next h0 =>
    split at hsucc
    next st1 heq => simp [isTokenSuccess] at hsucc
    next tk st1 heq =>
      split at hsucc
      next hc => simp [isTokenSuccess] at hsucc
      next hc =>
        split at hsucc
        next hr => simp [isTokenSuccess] at hsucc
        next hr =>
          split at hsucc
          next hp => simp [isTokenSuccess] at hsucc
          next hp =>
            have hc2 := not_ne_iff.mp hc
            have hr2 := not_ne_iff.mp hr
            have hp2 := not_ne_iff.mp hp
            have h1 : (consumeToken (hashToken (formValue form "code"))
                TokenType.authCode now st).1 = some tk := by rw [heq]
            have h2 : (consumeToken (hashToken (formValue form "code"))
                TokenType.authCode now st).2 = st1 := by rw [heq]
            refine ⟨tk, h1, hc2, hr2, hp2, h0, ?_⟩
            rw [if_neg h0, heq]
            dsimp only
            rw [if_neg hc, if_neg hr, if_neg hp]

/-- Claim C1: a successfully consumed single-use token (AuthCode or CSRF)
cannot be consumed again: the second `ConsumeToken` on the resulting
store returns Invalid; consequently a second `POST /token`
authorization-code exchange with identical parameters fails with the
generic invalid-or-expired-code error. -/
theorem authCode_single_use :
    (∀ (st : Store) (h : String) (ty : TokenType) (now now2 : Int) (tk : Token),
      Store.wf st → (ty = TokenType.authCode ∨ ty = TokenType.csrf) →
      (consumeToken h ty now st).1 = some tk →
      (consumeToken h ty now2 (consumeToken h ty now st).2).1 = none)
    ∧
    (∀ (st : Store) (form : List (String × String)) (now now2 texp rexp : Int)
      (ga gr ga2 gr2 : String),
      Store.wf st →
      isTokenSuccess (handleTokenAuthCode st form now texp rexp ga gr).1 = true →
      (handleTokenAuthCode (handleTokenAuthCode st form now texp rexp ga gr).2
        form now2 texp rexp ga2 gr2).1 = HttpResponse.err 400 "invalid or expired code") := by
  constructor
  · intro st h ty now now2 tk hwf _ hfind
    exact consume_none_of_no_match (fun t ht hcon =>
      consume_success_hash_gone hwf hfind t ht hcon.1)
  · intro st form now now2 texp rexp ga gr ga2 gr2 hwf hsucc
    obtain ⟨tk, h1, _, _, _, h0, heq⟩ :=
      handleTokenAuthCode_success st form now texp rexp ga gr hsucc
    rw [heq]
    have hnone : (consumeToken (hashToken (formValue form "code")) TokenType.authCode now2
        (storeToken (hashToken gr) TokenType.refresh (formValue form "client_id")
          (now + rexp) [] now
          (storeToken (hashToken ga) TokenType.access (formValue form "client_id")
            (now + texp) [] now
            (consumeToken (hashToken (formValue form "code"))
              TokenType.authCode now st).2))).1 = none := by
      refine consume_none_of_no_match (fun t ht hcon => ?_)
      rcases mem_storeToken ht with rfl | ht2
      · exact absurd hcon.2 (by simp)
      · rcases mem_storeToken ht2 with rfl | ht3
        · exact absurd hcon.2 (by simp)
        · exact consume_success_hash_gone hwf h1 t ht3 hcon.1
    simp only [handleTokenAuthCode, if_neg h0]
    simp only [consumeToken] at hnone ⊢
    simp [hnone]

/-- Witness for C1 at a concrete store, code and form: the first exchange
succeeds, the second returns the generic invalid-or-expired-code error. -/
theorem authCode_single_use_witness :
    (handleTokenAuthCode
      (handleTokenAuthCode
        [Token.mk (hashToken "c0de") TokenType.authCode "cl" 100
          [("client_id", "cl"), ("redirect_uri", "https://a/cb"),
           ("code_challenge", hashPKCE "ver"), ("code_challenge_method", "S256")]]
        [("code", "c0de"), ("redirect_uri", "https://a/cb"),
         ("code_verifier", "ver"), ("client_id", "cl")]
        10 3600 7200 "acc1" "ref1").2
      [("code", "c0de"), ("redirect_uri", "https://a/cb"),
       ("code_verifier", "ver"), ("client_id", "cl")]
      11 3600 7200 "acc2" "ref2").1 = HttpResponse.err 400 "invalid or expired code" :=
  authCode_single_use.2
    [Token.mk (hashToken "c0de") TokenType.authCode "cl" 100
      [("client_id", "cl"), ("redirect_uri", "https://a/cb"),
       ("code_challenge", hashPKCE "ver"), ("code_challenge_method", "S256")]]
    [("code", "c0de"), ("redirect_uri", "https://a/cb"),
     ("code_verifier", "ver"), ("client_id", "cl")]
    10 11 3600 7200 "acc1" "ref1" "acc2" "ref2"
    (by decide) (by decide)

/-- Claim C2: `HashPKCE` is the unpadded base64url encoding of the SHA-256
of the verifier, matching the RFC 7636 vector; the authorization-code
exchange succeeds only when the recomputed challenge equals the code's
bound challenge, and any mismatch yields the generic invalid
code_verifier error. -/
theorem pkce_correctness :
    hashPKCE "dBjftJeZ4CVP-mB92K27uhbUJU1p1r_wW1gFWFOEjXk"
        = "E9Melhoa2OwvFrEMTJguCHaoeK1t8URWbuGJSstw-cM"
    ∧ (∀ verifier : String, hashPKCE verifier = b64urlNoPad (sha256 (utf8Encode verifier)))
    ∧ (∀ (st : Store) (form : List (String × String)) (now texp rexp : Int) (ga gr : String),
        isTokenSuccess (handleTokenAuthCode st form now texp rexp ga gr).1 = true →
        ∃ tk, (consumeToken (hashToken (formValue form "code"))
                TokenType.authCode now st).1 = some tk
          ∧ hashPKCE (formValue form "code_verifier") = getData tk.data "code_challenge")
    ∧ (∀ (st : Store) (form : List (String × String)) (now texp rexp : Int)
        (ga gr : String) (tk : Token),
        (consumeToken (hashToken (formValue form "code"))
          TokenType.authCode now st).1 = some tk →
        ¬(formValue form "code" = "" ∨ formValue form "redirect_uri" = ""
          ∨ formValue form "code_verifier" = "" ∨ formValue form "client_id" = "") →
        getData tk.data "client_id" = formValue form "client_id" →
        getData tk.data "redirect_uri" = formValue form "redirect_uri" →
        hashPKCE (formValue form "code_verifier") ≠ getData tk.data "code_challenge" →
        (handleTokenAuthCode st form now texp rexp ga gr).1
          = HttpResponse.err 400 "invalid code_verifier") := by
  refine ⟨by decide, fun _ => rfl, ?_, ?_⟩
  · intro st form now texp rexp ga gr hsucc
    obtain ⟨tk, h1, _, _, hpk, _, _⟩ :=
      handleTokenAuthCode_success st form now texp rexp ga gr hsucc
    exact ⟨tk, h1, hpk⟩
  · intro st form now texp rexp ga gr tk hfind h0 hcid hruri hneq
    simp only [consumeToken] at hfind
    simp only [handleTokenAuthCode, consumeToken, if_neg h0]
    rw [hfind]
    dsimp only
    rw [if_neg (not_ne_iff.mpr hcid), if_neg (not_ne_iff.mpr hruri), if_pos hneq]

/-- Witness for C2: a code bound to the challenge of verifier `ver`,
presented with the wrong verifier, fails with the generic invalid
code_verifier error. -/
theorem pkce_correctness_witness :
    (handleTokenAuthCode
      [Token.mk (hashToken "c0de") TokenType.authCode "cl" 100
        [("client_id", "cl"), ("redirect_uri", "https://a/cb"),
         ("code_challenge", hashPKCE "ver"), ("code_challenge_method", "S256")]]
      [("code", "c0de"), ("redirect_uri", "https://a/cb"),
       ("code_verifier", "wrong"), ("client_id", "cl")]
      10 3600 7200 "a1" "r1").1 = HttpResponse.err 400 "invalid code_verifier" :=
  pkce_correctness.2.2.2
    [Token.mk (hashToken "c0de") TokenType.authCode "cl" 100
      [("client_id", "cl"), ("redirect_uri", "https://a/cb"),
       ("code_challenge", hashPKCE "ver"), ("code_challenge_method", "S256")]]
    [("code", "c0de"), ("redirect_uri", "https://a/cb"),
     ("code_verifier", "wrong"), ("client_id", "cl")]
    10 3600 7200 "a1" "r1"
    (Token.mk (hashToken "c0de") TokenType.authCode "cl" 100
      [("client_id", "cl"), ("redirect_uri", "https://a/cb"),
       ("code_challenge", hashPKCE "ver"), ("code_challenge_method", "S256")])
    (by decide) (by decide) (by decide) (by decide) (by decide)

theorem validateToken_storeToken_self {h : String} {ty : TokenType} {cid : String}
    {e now now2 : Int} {d : List (String × String)} {st : Store} (hlt : now2 < e) :
    validateToken h ty now2 (storeToken h ty cid e d now st)
      = some (Token.mk h ty cid e d) := by
  simp only [validateToken, storeToken]
  rw [List.find?_cons_of_pos]
  simp [tokenMatches, hlt]

theorem handleTokenRefresh_success
    (st : Store) (form : List (String × String)) (now texp rexp : Int) (ga gr : String)
    (hsucc : isTokenSuccess (handleTokenRefresh st form now texp rexp ga gr).1 = true) :
    ∃ tk, validateToken (hashToken (formValue form "refresh_token"))
            TokenType.refresh now st = some tk
      ∧ tk.clientID = formValue form "client_id"
      ∧ handleTokenRefresh st form now texp rexp ga gr
          = (HttpResponse.tokens ga gr texp,
             storeToken (hashToken gr) TokenType.refresh tk.clientID (now + rexp) [] now
               (storeToken (hashToken ga) TokenType.access tk.clientID (now + texp) [] now
                 (deleteToken (hashToken (formValue form "refresh_token")) st))) := by
  simp only [handleTokenRefresh] at hsucc ⊢
  split at hsucc
  next h0 => simp [isTokenSuccess] at hsucc
  next h0 =>
    split at hsucc
    next h1 => simp [isTokenSuccess] at hsucc
    next h1 =>
      split at hsucc
      next heq => simp [isTokenSuccess] at hsucc
      next tk heq =>
        split at hsucc
        next hcid => simp [isTokenSuccess] at hsucc
        next hcid =>
          refine ⟨tk, heq, not_ne_iff.mp hcid, ?_⟩
          rw [if_neg h0, if_neg h1, if_neg hcid]

/-- Claim C3: a successful refresh rotates the refresh token — the old
refresh token's hash is deleted (it no longer validates at any time),
and the new refresh token validates as type Refresh for the same client
at any time before its expiry. -/
theorem refresh_rotation
    (st : Store) (form : List (String × String)) (now texp rexp : Int) (ga gr : String)
    (hsucc : isTokenSuccess (handleTokenRefresh st form now texp rexp ga gr).1 = true)
    (hfresh : hashToken gr ≠ hashToken (formValue form "refresh_token")) :
    ∃ tk, validateToken (hashToken (formValue form "refresh_token"))
            TokenType.refresh now st = some tk
      ∧ tk.clientID = formValue form "client_id"
      ∧ (∀ now2 : Int,
          validateToken (hashToken (formValue form "refresh_token")) TokenType.refresh now2
            (handleTokenRefresh st form now texp rexp ga gr).2 = none)
      ∧ (∀ now2 : Int, now2 < now + rexp →
          validateToken (hashToken gr) TokenType.refresh now2
            (handleTokenRefresh st form now texp rexp ga gr).2
            = some (Token.mk (hashToken gr) TokenType.refresh tk.clientID (now + rexp) [])) := by
  obtain ⟨tk, hval, hcid, heq⟩ :=
    handleTokenRefresh_success st form now texp rexp ga gr hsucc
  refine ⟨tk, hval, hcid, ?_, ?_⟩
  · intro now2
    rw [heq]
    refine validate_none_of_no_match (fun t ht hcon => ?_)
    rcases mem_storeToken ht with rfl | ht2
    · exact hfresh hcon.1
    · rcases mem_storeToken ht2 with rfl | ht3
      · exact absurd hcon.2 (by simp)
      · exact (mem_deleteToken ht3).1 hcon.1
  · intro now2 hlt
    rw [heq]
    exact validateToken_storeToken_self hlt

/-- Witness for C3 at a concrete store: after a successful refresh the old
refresh token no longer validates and the new one does. -/
theorem refresh_rotation_witness :
    ∃ tk, validateToken (hashToken (formValue
            [("refresh_token", "oldref"), ("client_id", "cl")] "refresh_token"))
            TokenType.refresh 10
            [Token.mk (hashToken "oldref") TokenType.refresh "cl" 100 []] = some tk
      ∧ tk.clientID = formValue [("refresh_token", "oldref"), ("client_id", "cl")] "client_id"
      ∧ (∀ now2 : Int,
          validateToken (hashToken (formValue
              [("refresh_token", "oldref"), ("client_id", "cl")] "refresh_token"))
            TokenType.refresh now2
            (handleTokenRefresh [Token.mk (hashToken "oldref") TokenType.refresh "cl" 100 []]
              [("refresh_token", "oldref"), ("client_id", "cl")]
              10 3600 7200 "newacc" "newref").2 = none)
      ∧ (∀ now2 : Int, now2 < 10 + 7200 →
          validateToken (hashToken "newref") TokenType.refresh now2
            (handleTokenRefresh [Token.mk (hashToken "oldref") TokenType.refresh "cl" 100 []]
              [("refresh_token", "oldref"), ("client_id", "cl")]
              10 3600 7200 "newacc" "newref").2
            = some (Token.mk (hashToken "newref") TokenType.refresh "cl" (10 + 7200) [])) := by
  have h := refresh_rotation
    [Token.mk (hashToken "oldref") TokenType.refresh "cl" 100 []]
    [("refresh_token", "oldref"), ("client_id", "cl")]
    10 3600 7200 "newacc" "newref" (by decide) (by decide)
  obtain ⟨tk, hval, hcid, hold, hnew⟩ := h
  have htk : tk = Token.mk (hashToken "oldref") TokenType.refresh "cl" 100 [] := by
    have : validateToken (hashToken (formValue
        [("refresh_token", "oldref"), ("client_id", "cl")] "refresh_token"))
        TokenType.refresh 10
        [Token.mk (hashToken "oldref") TokenType.refresh "cl" 100 []]
        = some (Token.mk (hashToken "oldref") TokenType.refresh "cl" 100 []) := by decide
    rw [this] at hval
    exact (Option.some_inj.mp hval).symm
  subst htk
  exact ⟨_, hval, hcid, hold, hnew⟩

/-- Claim C4 counterexample: a binding mismatch on `client_id` produces the
response body "client_id mismatch", which is distinguishable from the
generic invalid-code response body "invalid or expired code" produced for
an unknown code, contradicting the claimed indistinguishability. -/
theorem binding_mismatch_counterexample :
    (handleTokenAuthCode
      [Token.mk (hashToken "c0de") TokenType.authCode "clA" 100
        [("client_id", "clA"), ("redirect_uri", "https://a/cb"),
         ("code_challenge", hashPKCE "ver"), ("code_challenge_method", "S256")]]
      [("code", "c0de"), ("redirect_uri", "https://a/cb"),
       ("code_verifier", "ver"), ("client_id", "clB")]
      10 3600 7200 "a1" "r1").1 = HttpResponse.err 400 "client_id mismatch"
    ∧ (handleTokenAuthCode []
      [("code", "c0de"), ("redirect_uri", "https://a/cb"),
       ("code_verifier", "ver"), ("client_id", "clB")]
      10 3600 7200 "a1" "r1").1 = HttpResponse.err 400 "invalid or expired code"
    ∧ HttpResponse.err 400 "client_id mismatch"
        ≠ HttpResponse.err 400 "invalid or expired code" :=
  ⟨by decide, by decide, by decide⟩

/-- Claim C4 (amended): an authorization-code exchange whose consumed
code's bound `client_id` or `redirect_uri` differs from the request
fails with HTTP 400 — the same status as a generically invalid code —
though the error message names which binding check failed. -/
theorem binding_mismatch_status
    (st : Store) (form : List (String × String)) (now texp rexp : Int)
    (ga gr : String) (tk : Token)
    (hfind : (consumeToken (hashToken (formValue form "code"))
      TokenType.authCode now st).1 = some tk)
    (h0 : ¬(formValue form "code" = "" ∨ formValue form "redirect_uri" = ""
      ∨ formValue form "code_verifier" = "" ∨ formValue form "client_id" = ""))
    (hmm : getData tk.data "client_id" ≠ formValue form "client_id"
      ∨ (getData tk.data "client_id" = formValue form "client_id"
         ∧ getData tk.data "redirect_uri" ≠ formValue form "redirect_uri")) :
    ∃ msg, (handleTokenAuthCode st form now texp rexp ga gr).1
        = HttpResponse.err 400 msg
      ∧ (msg = "client_id mismatch" ∨ msg = "redirect_uri mismatch") := by
  simp only [consumeToken] at hfind
  simp only [handleTokenAuthCode, consumeToken, if_neg h0]
  rw [hfind]
  dsimp only
  rcases hmm with hcid | ⟨hcid, hruri⟩
  · exact ⟨"client_id mismatch", by rw [if_pos hcid], Or.inl rfl⟩
  · exact ⟨"redirect_uri mismatch",
      by rw [if_neg (not_ne_iff.mpr hcid), if_pos hruri], Or.inr rfl⟩

/-- Witness for the amended C4: a concrete mismatch on `redirect_uri`
yields a 400 response whose message names the redirect_uri check. -/
theorem binding_mismatch_status_witness :
    ∃ msg, (handleTokenAuthCode
      [Token.mk (hashToken "c0de") TokenType.authCode "clA" 100
        [("client_id", "clA"), ("redirect_uri", "https://a/cb"),
         ("code_challenge", hashPKCE "ver"), ("code_challenge_method", "S256")]]
      [("code", "c0de"), ("redirect_uri", "https://b/cb"),
       ("code_verifier", "ver"), ("client_id", "clA")]
      10 3600 7200 "a1" "r1").1 = HttpResponse.err 400 msg
      ∧ (msg = "client_id mismatch" ∨ msg = "redirect_uri mismatch") :=
  binding_mismatch_status
    [Token.mk (hashToken "c0de") TokenType.authCode "clA" 100
      [("client_id", "clA"), ("redirect_uri", "https://a/cb"),
       ("code_challenge", hashPKCE "ver"), ("code_challenge_method", "S256")]]
    [("code", "c0de"), ("redirect_uri", "https://b/cb"),
     ("code_verifier", "ver"), ("client_id", "clA")]
    10 3600 7200 "a1" "r1"
    (Token.mk (hashToken "c0de") TokenType.authCode "clA" 100
      [("client_id", "clA"), ("redirect_uri", "https://a/cb"),
       ("code_challenge", hashPKCE "ver"), ("code_challenge_method", "S256")])
    (by decide) (by decide) (by decide)

/-- Claim C5 counterexample: the auth-gate failure responses are not
uniform — a missing Authorization header yields body "missing token" and
challenge `Bearer realm="mykb"`, while a bearer token unknown to the
store yields body "invalid token" and a different challenge, so the
failure reason is distinguishable. -/
theorem authgate_uniformity_counterexample :
    requireAuth [] 0 "" = AuthResult.unauthorized 401 "Bearer realm=\"mykb\"" "missing token"
    ∧ requireAuth [] 0 "Bearer abc"
        = AuthResult.unauthorized 401
            "Bearer realm=\"mykb\", error=\"invalid_token\"" "invalid token"
    ∧ AuthResult.unauthorized 401 "Bearer realm=\"mykb\"" "missing token"
        ≠ AuthResult.unauthorized 401
            "Bearer realm=\"mykb\", error=\"invalid_token\"" "invalid token" :=
  ⟨by decide, by decide, by decide⟩

/-- Claim C5 (amended): every failed bearer authentication returns HTTP 401
with a WWW-Authenticate challenge; a missing or malformed (non-Bearer)
header yields the missing-token response, while every token-level
failure (unknown hash, wrong type, expired) yields one identical
invalid-token response, so failure reasons are uniform within the
token-level class but the two classes are distinguishable. -/
theorem authgate_responses (st : Store) (now : Int) (authHeader : String)
    (hfail : requireAuth st now authHeader ≠ AuthResult.allowed) :
    (∃ ch body, requireAuth st now authHeader = AuthResult.unauthorized 401 ch body)
    ∧ (¬ startsWithChars authHeader.data "Bearer ".data →
        requireAuth st now authHeader
          = AuthResult.unauthorized 401 "Bearer realm=\"mykb\"" "missing token")
    ∧ (startsWithChars authHeader.data "Bearer ".data →
        requireAuth st now authHeader
          = AuthResult.unauthorized 401
              "Bearer realm=\"mykb\", error=\"invalid_token\"" "invalid token") := by
  by_cases hb : startsWithChars authHeader.data "Bearer ".data = true
  · cases hv : validateToken (hashToken ⟨authHeader.data.drop 7⟩) TokenType.access now st with
    | none =>
      have hr : requireAuth st now authHeader
          = AuthResult.unauthorized 401
              "Bearer realm=\"mykb\", error=\"invalid_token\"" "invalid token" := by
        simp only [requireAuth, if_neg (not_not_intro hb), hv]
      exact ⟨⟨_, _, hr⟩, fun hc => absurd hb hc, fun _ => hr⟩
    | some tk =>
      exact absurd (by simp only [requireAuth, if_neg (not_not_intro hb), hv]) hfail
  · have hr : requireAuth st now authHeader
        = AuthResult.unauthorized 401 "Bearer realm=\"mykb\"" "missing token" := by
      simp only [requireAuth, if_pos hb]
    exact ⟨⟨_, _, hr⟩, fun _ => hr, fun hc => absurd hc hb⟩

/-- Witness for the amended C5: an expired access token in the store is
rejected with the invalid-token 401 response. -/
theorem authgate_responses_witness :
    requireAuth [Token.mk (hashToken "tok") TokenType.access "cl" 5 []] 10 "Bearer tok"
      = AuthResult.unauthorized 401
          "Bearer realm=\"mykb\", error=\"invalid_token\"" "invalid token" :=
  (authgate_responses [Token.mk (hashToken "tok") TokenType.access "cl" 5 []]
    10 "Bearer tok" (by decide)).2.2 (by decide)

def isRedirect : HttpResponse → Bool
  | .redirect _ _ _ => true
  | _ => false

theorem handleAuthorizePost_success
    (st : Store) (pw : Option String) (bc : String → String → Bool)
    (form : List (String × String)) (now cexp : Int) (gen : String)
    (hsucc : isRedirect (handleAuthorizePost st pw bc form now cexp gen).1 = true) :
    ∃ tk ph,
      (consumeToken (hashToken (formValue form "csrf_token"))
        TokenType.csrf now st).1 = some tk
      ∧ pw = some ph ∧ bc ph (formValue form "password") = true
      ∧ handleAuthorizePost st pw bc form now cexp gen
          = (HttpResponse.redirect (getData tk.data "redirect_uri") gen
               (getData tk.data "state"),
             storeToken (hashToken gen) TokenType.authCode (getData tk.data "client_id")
               (now + cexp)
               [("client_id", getData tk.data "client_id"),
                ("redirect_uri", getData tk.data "redirect_uri"),
                ("code_challenge", getData tk.data "code_challenge"),
                ("code_challenge_method", getData tk.data "code_challenge_method")] now
               (consumeToken (hashToken (formValue form "csrf_token"))
                 TokenType.csrf now st).2) := by
  cases pw with
  | none =>
    simp only [handleAuthorizePost] at hsucc
    split at hsucc
    next st1 heq => simp [isRedirect] at hsucc
    next tk st1 heq => simp [isRedirect] at hsucc
  | some ph =>
    simp only [handleAuthorizePost] at hsucc ⊢
    split at hsucc
    next st1 heq => simp [isRedirect] at hsucc
    next tk st1 heq =>
      split at hsucc
      next hbc => simp [isRedirect] at hsucc
      next hbc =>
        have h1 : (consumeToken (hashToken (formValue form "csrf_token"))
            TokenType.csrf now st).1 = some tk := by rw [heq]
        refine ⟨tk, ph, h1, rfl, not_not.mp hbc, ?_⟩
        rw [heq]
        dsimp only
        rw [if_neg hbc]

/-- Claim C6: two `POST /authorize` requests presenting the same csrf_token
and password but differing in any other submitted form fields have
identical outcomes; on success the issued code's bound data and the
redirect target come only from the consumed CSRF token's bound data. -/
theorem csrf_bound_parameters :
    (∀ (st : Store) (pw : Option String) (bc : String → String → Bool)
       (form1 form2 : List (String × String)) (now cexp : Int) (gen : String),
      formValue form1 "csrf_token" = formValue form2 "csrf_token" →
      formValue form1 "password" = formValue form2 "password" →
      handleAuthorizePost st pw bc form1 now cexp gen
        = handleAuthorizePost st pw bc form2 now cexp gen)
    ∧ (∀ (st : Store) (pw : Option String) (bc : String → String → Bool)
         (form : List (String × String)) (now cexp : Int) (gen : String),
        isRedirect (handleAuthorizePost st pw bc form now cexp gen).1 = true →
        ∃ tk, (consumeToken (hashToken (formValue form "csrf_token"))
                TokenType.csrf now st).1 = some tk
          ∧ handleAuthorizePost st pw bc form now cexp gen
              = (HttpResponse.redirect (getData tk.data "redirect_uri") gen
                   (getData tk.data "state"),
                 storeToken (hashToken gen) TokenType.authCode
                   (getData tk.data "client_id") (now + cexp)
                   [("client_id", getData tk.data "client_id"),
                    ("redirect_uri", getData tk.data "redirect_uri"),
                    ("code_challenge", getData tk.data "code_challenge"),
                    ("code_challenge_method", getData tk.data "code_challenge_method")] now
                   (consumeToken (hashToken (formValue form "csrf_token"))
                     TokenType.csrf now st).2)) := by
  constructor
  · intro st pw bc form1 form2 now cexp gen h1 h2
    simp only [handleAuthorizePost]
    rw [h1, h2]
  · intro st pw bc form now cexp gen hsucc
    obtain ⟨tk, ph, h1, _, _, heq⟩ :=
      handleAuthorizePost_success st pw bc form now cexp gen hsucc
    exact ⟨tk, h1, heq⟩

/-- Witness for C6: two concrete forms differing in extra fields
(client_id, redirect_uri, code_challenge, state) but agreeing on
csrf_token and password produce identical outcomes. -/
theorem csrf_bound_parameters_witness :
    handleAuthorizePost
      [Token.mk (hashToken "csrf1") TokenType.csrf "cl" 100
        [("client_id", "cl"), ("redirect_uri", "https://a/cb"),
         ("code_challenge", "ch"), ("code_challenge_method", "S256"), ("state", "xyz")]]
      (some "pwhash") (fun h p => h == "pwhash" && p == "secret")
      [("csrf_token", "csrf1"), ("password", "secret"),
       ("client_id", "evil"), ("redirect_uri", "https://evil/cb"),
       ("code_challenge", "evilch"), ("state", "evilstate")]
      10 300 "gencode"
    = handleAuthorizePost
      [Token.mk (hashToken "csrf1") TokenType.csrf "cl" 100
        [("client_id", "cl"), ("redirect_uri", "https://a/cb"),
         ("code_challenge", "ch"), ("code_challenge_method", "S256"), ("state", "xyz")]]
      (some "pwhash") (fun h p => h == "pwhash" && p == "secret")
      [("csrf_token", "csrf1"), ("password", "secret")]
      10 300 "gencode" :=
  csrf_bound_parameters.1
    [Token.mk (hashToken "csrf1") TokenType.csrf "cl" 100
      [("client_id", "cl"), ("redirect_uri", "https://a/cb"),
       ("code_challenge", "ch"), ("code_challenge_method", "S256"), ("state", "xyz")]]
    (some "pwhash") (fun h p => h == "pwhash" && p == "secret")
    [("csrf_token", "csrf1"), ("password", "secret"),
     ("client_id", "evil"), ("redirect_uri", "https://evil/cb"),
     ("code_challenge", "evilch"), ("state", "evilstate")]
    [("csrf_token", "csrf1"), ("password", "secret")]
    10 300 "gencode" (by decide) (by decide)

theorem xffFirst_no_comma_append (l r : List Char) (hl : ∀ c ∈ l, c ≠ ',') :
    xffFirst (l ++ ',' :: r) = l := by
  induction l with
  | nil => simp [xffFirst]
  | cons c cs ih =>
    have hc : c ≠ ',' := hl c (List.mem_cons_self c cs)
    have ihh := ih (fun x hx => hl x (List.mem_cons_of_mem c hx))
    simp [xffFirst, hc, ihh]

/-- Claim C7: with `behindProxy = false` the rate-limiting key is the
transport-level peer IP, independent of the X-Forwarded-For header; with
`behindProxy = true` and a non-empty header the key is the left-most
address in the header (the part before the first comma). -/
theorem rate_limit_key_default_untrusting :
    (∀ (remoteAddr xff1 xff2 : String),
      rateLimitKey false remoteAddr xff1 = getIP remoteAddr
      ∧ rateLimitKey false remoteAddr xff1 = rateLimitKey false remoteAddr xff2)
    ∧ (∀ (remoteAddr xff : String), xff ≠ "" →
        rateLimitKey true remoteAddr xff = getIPFromXFF xff)
    ∧ (∀ (l r : String), (∀ c ∈ l.data, c ≠ ',') →
        getIPFromXFF ⟨l.data ++ ',' :: r.data⟩ = l) := by
  refine ⟨fun remoteAddr xff1 xff2 => ⟨by simp [rateLimitKey], by simp [rateLimitKey]⟩,
    fun remoteAddr xff h => by simp [rateLimitKey, h], fun l r hl => ?_⟩
  show (⟨xffFirst (l.data ++ ',' :: r.data)⟩ : String) = l
  rw [xffFirst_no_comma_append l.data r.data hl]

/-- Witness for C7: a proxy-trusting limiter keyed on a two-address
forwarded-for header uses the left-most address. -/
theorem rate_limit_key_witness :
    rateLimitKey true "1.2.3.4:5678" "9.9.9.9,8.8.8.8"
      = getIPFromXFF "9.9.9.9,8.8.8.8" :=
  rate_limit_key_default_untrusting.2.1 "1.2.3.4:5678" "9.9.9.9,8.8.8.8" (by decide)

theorem validateRedirectURI_none_iff (uri : String) :
    validateRedirectURI uri = none ↔
      ∃ u, parseURL uri = some u
        ∧ (u.scheme = "https"
           ∨ (u.scheme = "http"
              ∧ (u.host = "localhost" ∨ u.host = "127.0.0.1" ∨ u.host = "::1")))
        ∧ u.fragment = "" := by
  unfold validateRedirectURI
  cases hp : parseURL uri with
  | none =>
    refine iff_of_false (by simp) ?_
    rintro ⟨u, hu, -, -⟩
    simp at hu
  | some u =>
    dsimp only
    split_ifs with h1 h2 h3 h4 h5
    · refine iff_of_false (by simp) ?_
      rintro ⟨u2, hu, -, hfr⟩
      injection hu with hu
      subst hu
      exact h2 hfr
    · exact iff_of_true rfl ⟨u, rfl, Or.inl h1, not_ne_iff.mp h2⟩
    · refine iff_of_false (by simp) ?_
      rintro ⟨u2, hu, hP, -⟩
      injection hu with hu
      subst hu
      rcases hP with hs | ⟨-, hin⟩
      · exact h1 hs
      · rcases hin with hx | hx | hx
        · exact h4.1 hx
        · exact h4.2.1 hx
        · exact h4.2.2 hx
    · refine iff_of_false (by simp) ?_
      rintro ⟨u2, hu, -, hfr⟩
      injection hu with hu
      subst hu
      exact h5 hfr
    · refine iff_of_true rfl ⟨u, rfl, Or.inr ⟨h3, ?_⟩, not_ne_iff.mp h5⟩
      by_contra hcon
      push_neg at hcon
      exact h4 hcon
    · refine iff_of_false (by simp) ?_
      rintro ⟨u2, hu, hP, -⟩
      injection hu with hu
      subst hu
      rcases hP with hs | ⟨hs, -⟩
      · exact h1 hs
      · exact h3 hs

theorem firstURIError_eq_none {uris : List String} :
    firstURIError uris = none ↔ ∀ u ∈ uris, validateRedirectURI u = none := by
  induction uris with
  | nil => simp [firstURIError]
  | cons u rest ih =>
    cases hv : validateRedirectURI u with
    | none => simp [firstURIError, hv, ih]
    | some e => simp [firstURIError, hv]

/-- Claim C8: registration accepts a redirect URI iff it parses as a URL
whose scheme is https (any host) or http with a loopback host
(localhost, 127.0.0.1 or ::1) and carries no fragment; `POST /register`
returns 400 when `redirect_uris` is empty or any URI fails the policy,
and 201 echoing the registration data otherwise. -/
theorem redirect_uri_policy :
    (∀ uri : String,
      validateRedirectURI uri = none ↔
        ∃ u, parseURL uri = some u
          ∧ (u.scheme = "https"
             ∨ (u.scheme = "http"
                ∧ (u.host = "localhost" ∨ u.host = "127.0.0.1" ∨ u.host = "::1")))
          ∧ u.fragment = "")
    ∧ (∀ (clientName : String) (uris : List String) (genID : String) (now : Int)
         (clients : List OAuthClient),
        (uris = [] ∨ ∃ u ∈ uris, validateRedirectURI u ≠ none) →
        ∃ msg, (handleRegister (some (clientName, uris)) genID now clients).1
          = RegResult.err 400 msg)
    ∧ (∀ (clientName : String) (uris : List String) (genID : String) (now : Int)
         (clients : List OAuthClient),
        uris ≠ [] → (∀ u ∈ uris, validateRedirectURI u = none) →
        (handleRegister (some (clientName, uris)) genID now clients).1
          = RegResult.created 201 genID clientName uris) := by
  refine ⟨validateRedirectURI_none_iff, ?_, ?_⟩
  · intro clientName uris genID now clients hbad
    rcases hbad with rfl | ⟨u, hu, hne⟩
    · exact ⟨"redirect_uris required", by simp [handleRegister]⟩
    · have hlen : uris.length ≠ 0 := by
        intro h
        rw [List.length_eq_zero] at h
        subst h
        simp at hu
      cases hfe : firstURIError uris with
      | none => exact absurd (firstURIError_eq_none.mp hfe u hu) hne
      | some e =>
        exact ⟨"invalid redirect_uri: " ++ e, by simp [handleRegister, hfe, hlen]⟩
  · intro clientName uris genID now clients hne hall
    have hlen : uris.length ≠ 0 := by
      intro h
      exact hne (List.length_eq_zero.mp h)
    have hfe : firstURIError uris = none := firstURIError_eq_none.mpr hall
    simp [handleRegister, hfe, hlen]

/-- Witness for C8: registering loopback-http and https URIs succeeds with
201 and the echoed data. -/
theorem redirect_uri_policy_witness :
    (handleRegister (some ("app", ["http://localhost/cb", "https://example.com/x"]))
      "cid-1" 0 []).1 = RegResult.created 201 "cid-1" "app"
        ["http://localhost/cb", "https://example.com/x"] :=
  redirect_uri_policy.2.2 "app" ["http://localhost/cb", "https://example.com/x"]
    "cid-1" 0 [] (by decide) (by decide)

/-- Claim C9: when a single-use token is consumed and a later check in the
same request fails, the error response leaves the token deleted: a
`POST /authorize` with a valid CSRF token and a wrong password returns
401 with the CSRF token consumed (a retry gets the generic
invalid-or-expired error), and a `POST /token` exchange failing the
binding or PKCE checks returns 400 with the code destroyed, so a retry
with corrected parameters also fails. -/
theorem no_rollback_after_consume :
    (∀ (st : Store) (ph : String) (bc : String → String → Bool)
       (form form2 : List (String × String)) (now now2 cexp : Int)
       (gen gen2 : String) (tk : Token),
      Store.wf st →
      (consumeToken (hashToken (formValue form "csrf_token"))
        TokenType.csrf now st).1 = some tk →
      bc ph (formValue form "password") = false →
      handleAuthorizePost st (some ph) bc form now cexp gen
        = (HttpResponse.err 401 "invalid password",
           (consumeToken (hashToken (formValue form "csrf_token"))
             TokenType.csrf now st).2)
      ∧ (formValue form2 "csrf_token" = formValue form "csrf_token" →
         (handleAuthorizePost
            (consumeToken (hashToken (formValue form "csrf_token"))
              TokenType.csrf now st).2
            (some ph) bc form2 now2 cexp gen2).1
           = HttpResponse.err 400 "invalid or expired CSRF token"))
    ∧ (∀ (st : Store) (form form2 : List (String × String)) (now now2 texp rexp : Int)
         (ga gr ga2 gr2 : String) (tk : Token),
      Store.wf st →
      (consumeToken (hashToken (formValue form "code"))
        TokenType.authCode now st).1 = some tk →
      ¬(formValue form "code" = "" ∨ formValue form "redirect_uri" = ""
        ∨ formValue form "code_verifier" = "" ∨ formValue form "client_id" = "") →
      (getData tk.data "client_id" ≠ formValue form "client_id"
        ∨ getData tk.data "redirect_uri" ≠ formValue form "redirect_uri"
        ∨ hashPKCE (formValue form "code_verifier") ≠ getData tk.data "code_challenge") →
      (∃ msg, handleTokenAuthCode st form now texp rexp ga gr
        = (HttpResponse.err 400 msg,
           (consumeToken (hashToken (formValue form "code"))
             TokenType.authCode now st).2))
      ∧ (formValue form2 "code" = formValue form "code" →
         ¬(formValue form2 "code" = "" ∨ formValue form2 "redirect_uri" = ""
           ∨ formValue form2 "code_verifier" = "" ∨ formValue form2 "client_id" = "") →
         (handleTokenAuthCode
            (consumeToken (hashToken (formValue form "code"))
              TokenType.authCode now st).2
            form2 now2 texp rexp ga2 gr2).1
           = HttpResponse.err 400 "invalid or expired code")) := by
  constructor
  · intro st ph bc form form2 now now2 cexp gen gen2 tk hwf hfind hbc
    constructor
    · simp only [consumeToken] at hfind
      simp only [handleAuthorizePost, consumeToken]
      rw [hfind]
      dsimp only
      rw [if_pos (by simp [hbc])]
    · intro hfv
      have hnone : (consumeToken (hashToken (formValue form2 "csrf_token"))
          TokenType.csrf now2
          (consumeToken (hashToken (formValue form "csrf_token"))
            TokenType.csrf now st).2).1 = none := by
        rw [hfv]
        exact consume_none_of_no_match (fun t ht hcon =>
          consume_success_hash_gone hwf hfind t ht hcon.1)
      simp only [handleAuthorizePost]
      simp only [consumeToken] at hnone ⊢
      simp [hnone]
  · intro st form form2 now now2 texp rexp ga gr ga2 gr2 tk hwf hfind h0 hmm
    constructor
    · simp only [consumeToken] at hfind
      simp only [handleTokenAuthCode, consumeToken, if_neg h0]
      rw [hfind]
      dsimp only
      by_cases hc : getData tk.data "client_id" ≠ formValue form "client_id"
      · exact ⟨"client_id mismatch", by rw [if_pos hc]⟩
      · by_cases hr : getData tk.data "redirect_uri" ≠ formValue form "redirect_uri"
        · exact ⟨"redirect_uri mismatch", by rw [if_neg hc, if_pos hr]⟩
        · have hp : hashPKCE (formValue form "code_verifier")
              ≠ getData tk.data "code_challenge" := by
            rcases hmm with h | h | h
            · exact absurd h hc
            · exact absurd h hr
            · exact h
          exact ⟨"invalid code_verifier", by rw [if_neg hc, if_neg hr, if_pos hp]⟩
    · intro hfv h02
      have hnone : (consumeToken (hashToken (formValue form2 "code"))
          TokenType.authCode now2
          (consumeToken (hashToken (formValue form "code"))
            TokenType.authCode now st).2).1 = none := by
        rw [hfv]
        exact consume_none_of_no_match (fun t ht hcon =>
          consume_success_hash_gone hwf hfind t ht hcon.1)
      simp only [handleTokenAuthCode, if_neg h02]
      simp only [consumeToken] at hnone ⊢
      simp [hnone]

/-- Witness for C9: a concrete `POST /authorize` with a valid CSRF token
and a wrong password returns 401, and retrying the same CSRF token gets
the generic invalid-or-expired error. -/
theorem no_rollback_after_consume_witness :
    handleAuthorizePost
      [Token.mk (hashToken "csrf1") TokenType.csrf "cl" 100
        [("client_id", "cl"), ("redirect_uri", "https://a/cb"),
         ("code_challenge", "ch"), ("code_challenge_method", "S256"), ("state", "")]]
      (some "ph") (fun h p => h == "ph" && p == "right")
      [("csrf_token", "csrf1"), ("password", "wrong")] 10 300 "gc"
      = (HttpResponse.err 401 "invalid password",
         (consumeToken (hashToken (formValue
             [("csrf_token", "csrf1"), ("password", "wrong")] "csrf_token"))
           TokenType.csrf 10
           [Token.mk (hashToken "csrf1") TokenType.csrf "cl" 100
             [("client_id", "cl"), ("redirect_uri", "https://a/cb"),
              ("code_challenge", "ch"), ("code_challenge_method", "S256"), ("state", "")]]).2)
    ∧ (formValue [("csrf_token", "csrf1"), ("password", "right")] "csrf_token"
        = formValue [("csrf_token", "csrf1"), ("password", "wrong")] "csrf_token" →
       (handleAuthorizePost
          (consumeToken (hashToken (formValue
              [("csrf_token", "csrf1"), ("password", "wrong")] "csrf_token"))
            TokenType.csrf 10
            [Token.mk (hashToken "csrf1") TokenType.csrf "cl" 100
              [("client_id", "cl"), ("redirect_uri", "https://a/cb"),
               ("code_challenge", "ch"), ("code_challenge_method", "S256"), ("state", "")]]).2
          (some "ph") (fun h p => h == "ph" && p == "right")
          [("csrf_token", "csrf1"), ("password", "right")] 11 300 "gc2").1
         = HttpResponse.err 400 "invalid or expired CSRF token") :=
  no_rollback_after_consume.1
    [Token.mk (hashToken "csrf1") TokenType.csrf "cl" 100
      [("client_id", "cl"), ("redirect_uri", "https://a/cb"),
       ("code_challenge", "ch"), ("code_challenge_method", "S256"), ("state", "")]]
    "ph" (fun h p => h == "ph" && p == "right")
    [("csrf_token", "csrf1"), ("password", "wrong")]
    [("csrf_token", "csrf1"), ("password", "right")]
    10 11 300 "gc" "gc2"
    (Token.mk (hashToken "csrf1") TokenType.csrf "cl" 100
      [("client_id", "cl"), ("redirect_uri", "https://a/cb"),
       ("code_challenge", "ch"), ("code_challenge_method", "S256"), ("state", "")])
    (by decide) (by decide) (by decide)

theorem b64Chars_length : ∀ l : List Nat, (b64Chars l).length = (4 * l.length + 2) / 3
  | [] => rfl
  | [_] => by simp [b64Chars]
  | [_, _] => by simp [b64Chars]
  | a :: b :: c :: rest => by
    simp only [b64Chars, List.length_cons, b64Chars_length rest]
    omega

theorem sha256_length (msg : List Nat) : (sha256 msg).length = 32 := by
  simp [sha256, stateBytes, wordBytes]

theorem hashPKCE_length (verifier : String) : (hashPKCE verifier).length = 43 := by
  show (b64Chars (sha256 (utf8Encode verifier))).length = 43
  rw [b64Chars_length, sha256_length]

/-- Claim C10: `GET /authorize` does not require a non-empty
code_challenge — with all other parameters valid and the challenge
absent it returns the login form with a CSRF token binding an empty
challenge; and since `HashPKCE` always produces a 43-character string,
an authorization code bound to an empty challenge can never be
exchanged successfully. -/
theorem empty_code_challenge_unredeemable :
    (∀ (st : Store) (clients : List OAuthClient) (query : List (String × String))
       (now : Int) (gen : String) (client : OAuthClient),
      getClient clients (formValue query "client_id") = some client →
      client.redirectURIs.contains (formValue query "redirect_uri") = true →
      formValue query "response_type" = "code" →
      (formValue query "code_challenge_method" = ""
        ∨ formValue query "code_challenge_method" = "S256") →
      formValue query "code_challenge" = "" →
      handleAuthorizeGet st clients query now gen
        = (HttpResponse.htmlForm gen,
           storeToken (hashToken gen) TokenType.csrf (formValue query "client_id")
             (now + 300)
             [("client_id", formValue query "client_id"),
              ("redirect_uri", formValue query "redirect_uri"),
              ("code_challenge", ""), ("code_challenge_method", "S256"),
              ("state", formValue query "state")] now st))
    ∧ (∀ verifier : String, (hashPKCE verifier).length = 43)
    ∧ (∀ (st : Store) (form : List (String × String)) (now texp rexp : Int)
         (ga gr : String) (tk : Token),
        (consumeToken (hashToken (formValue form "code"))
          TokenType.authCode now st).1 = some tk →
        getData tk.data "code_challenge" = "" →
        isTokenSuccess (handleTokenAuthCode st form now texp rexp ga gr).1 = false) := by
  refine ⟨?_, hashPKCE_length, ?_⟩
  · intro st clients query now gen client hclient hcont hrt hm hch
    have hmem : formValue query "redirect_uri" ∈ client.redirectURIs := by
      simpa using hcont
    rcases hm with hm | hm <;>
      simp [handleAuthorizeGet, hclient, hmem, hrt, hm, hch]
  · intro st form now texp rexp ga gr tk hfind hch
    cases hs : isTokenSuccess (handleTokenAuthCode st form now texp rexp ga gr).1 with
    | false => rfl
    | true =>
      exfalso
      obtain ⟨tk2, hfind2, -, -, hpk, -, -⟩ :=
        handleTokenAuthCode_success st form now texp rexp ga gr hs
      rw [hfind] at hfind2
      injection hfind2 with htk
      subst htk
      rw [hch] at hpk
      have hlen := hashPKCE_length (formValue form "code_verifier")
      rw [hpk] at hlen
      simp at hlen

/-- Witness for C10: a concrete `GET /authorize` with no code_challenge
parameter returns the form and binds an empty challenge. -/
theorem empty_code_challenge_witness :
    handleAuthorizeGet []
      [OAuthClient.mk "cl" "app" ["https://a/cb"] 0 0]
      [("client_id", "cl"), ("redirect_uri", "https://a/cb"), ("response_type", "code")]
      10 "gcsrf"
      = (HttpResponse.htmlForm "gcsrf",
         storeToken (hashToken "gcsrf") TokenType.csrf "cl" (10 + 300)
           [("client_id", "cl"), ("redirect_uri", "https://a/cb"),
            ("code_challenge", ""), ("code_challenge_method", "S256"), ("state", "")] 10 []) :=
  empty_code_challenge_unredeemable.1 []
    [OAuthClient.mk "cl" "app" ["https://a/cb"] 0 0]
    [("client_id", "cl"), ("redirect_uri", "https://a/cb"), ("response_type", "code")]
    10 "gcsrf" (OAuthClient.mk "cl" "app" ["https://a/cb"] 0 0)
    (by decide) (by decide) (by decide) (Or.inl (by decide)) (by decide)

end MyKB
